import Mathlib

/-!
# FeedSieve — verification of the filtering/sorting/read-state core

Shallow embedding of the `FeedSieve` class found (in several near-duplicate
variants) in this repository:

* `src/js/app.js` — the early variant ("early" below): type filter without the
  `rss` default, date sort keyed on `processed_at || published_at`, rating sort
  without the `|| 0` default, no temporal/source/category stages.
* `src/site/js/app.js` (first class, "site" below): type filter with the `rss`
  default applied whenever the mode is not `all`; per-key `localStorage`
  read-state store (`read_<id>` keys).
* `src/js/app.1766840000.js` and `src/unnamed/part_000` (and the second class in
  `src/site/js/app.js`) — the full pipeline ("v3" below): today/week/type/source/
  category/search stages, `published_at || processed_at || 0` date key,
  `rating || 0` rating key, `Set`-based read-state store persisted under the
  `readItems` key.

Modelling conventions (JS semantics made explicit):

* An absent (`undefined`) string field is `Option.none`; JS truthiness of a
  string (`x || y`, `if (x)`) treats both `undefined` and `""` as falsy, which
  `jsFalsy` captures.
* Template literals convert `undefined` to the string `"undefined"` (`tmpl`).
* Timestamps: the host `Date` parser is abstracted as a parameter
  `parse : String → Option Int` returning milliseconds since the epoch, `none`
  standing for an invalid date (`NaN`).  `Date.prototype.toDateString` equality
  is modelled as equality of local calendar days under a fixed UTC offset
  `tzOff` (milliseconds), i.e. equality of `(t + tzOff).fdiv 86400000`.
* `Array.prototype.sort` is required by ES2019 to be stable, and the ECMAScript
  `SortCompare` step maps a `NaN` comparator result to `+0`; it is modelled as
  the stable `List.insertionSort` over the relation "the comparator does not
  require a swap".
* `String.prototype.toLowerCase` is modelled per-character by `Char.toLower`.
* The presentation-only article fields (`original_url`, `url`, `ideas`) carry no
  filtering/sorting/read-state semantics and are omitted from the embedding.
-/

/-- JS string truthiness: `undefined` and `""` are falsy. -/
def jsFalsy (o : Option String) : Option String :=
  match o with
  | none => none
  | some s => if s = "" then none else some s

/-- JS `x || y` on possibly-absent strings: `y` whenever `x` is falsy. -/
def jsOr (x y : Option String) : Option String :=
  match jsFalsy x with
  | some s => some s
  | none => y

/-- JS `x || d` with a mandatory string default (`item.source_type || 'rss'`). -/
def jsOrDefault (o : Option String) (d : String) : String :=
  match jsFalsy o with
  | some s => s
  | none => d

/-- Template-literal interpolation of a possibly-absent string: JS renders
`undefined` as the literal string `"undefined"`. -/
def tmpl (o : Option String) : String := o.getD "undefined"

/-- `${item.source_name || ''}`: empty-string substitution for a falsy field. -/
def jsOrEmpty (o : Option String) : String :=
  match jsFalsy o with
  | some s => s
  | none => ""

/-- `String.prototype.toLowerCase`, modelled per character. -/
def toLowerCase (s : String) : String := ⟨s.data.map Char.toLower⟩

/-- `String.prototype.includes`: contiguous-substring test. -/
def includes (s pat : String) : Bool := decide (pat.data <:+: s.data)

/-- Decimal digits of a natural number (most significant first); `fuel` bounds
the recursion and is always supplied as at least the digit count. -/
def natDigits (fuel n : Nat) : List Char :=
  match fuel with
  | 0 => []
  | fuel + 1 =>
    if n < 10 then [Nat.digitChar n]
    else natDigits fuel (n / 10) ++ [Nat.digitChar (n % 10)]

/-- JS `String(n)` for an integral number. -/
def jsNumToString (n : Int) : String :=
  if n < 0 then "-" ++ ⟨natDigits n.natAbs n.natAbs⟩ else ⟨natDigits (n.toNat + 1) n.toNat⟩

/-- A JS primitive value as it can appear in `item.source_id`: a string, an
integral number, or `undefined`. -/
inductive JsVal where
  | str : String → JsVal
  | num : Int → JsVal
  | undef : JsVal
deriving DecidableEq

/-- JS `String(v)` coercion. -/
def jsString (v : JsVal) : String :=
  match v with
  | .str s => s
  | .num n => jsNumToString n
  | .undef => "undefined"

/-- An article of the feed document (`data/feed.json`), restricted to the
fields consumed by the filtering/sorting/indexing/read-state core.  Absent
optional fields are `none`. -/
structure Article where
  id : Int
  title : Option String
  summary : Option String
  source_type : Option String
  source_id : JsVal
  source_name : Option String
  published_at : Option String
  processed_at : Option String
  rating : Option Int
  labels : Option (List String)
deriving DecidableEq

/-- `this.currentSource` as set by `handleSourceClick`: the clicked button's
`data-source-id` / `data-source-type`. -/
structure SourceSel where
  id : JsVal
  type : String
deriving DecidableEq

/-- The view-selection state of the v3 `FeedSieve` class: `currentFilter`,
`currentSource`, `currentCategory`, `searchQuery`, `sortBy`. -/
structure ViewState where
  currentFilter : String
  currentSource : Option SourceSel
  currentCategory : Option String
  searchQuery : String
  sortBy : String
deriving DecidableEq

/-- The search corpus of the v3/site `applyFilters`
(`` `${item.title} ${item.summary} ${item.source_name || ''}` ``): note that an
absent `title` or `summary` interpolates as the string `"undefined"`, while an
absent `source_name` becomes `""`. -/
def searchText (item : Article) : String :=
  tmpl item.title ++ " " ++ tmpl item.summary ++ " " ++ jsOrEmpty item.source_name

/-- The search corpus of the early `applyFilters` (`src/js/app.js` line 89):
no `|| ''` guard on any of the three fields. -/
def searchTextEarly (item : Article) : String :=
  tmpl item.title ++ " " ++ tmpl item.summary ++ " " ++ tmpl item.source_name

/-- Local calendar-day index of an epoch-milliseconds instant under a fixed
UTC offset `tzOff` (milliseconds).  Two instants fall on the same local
calendar day — i.e. have equal `toDateString()` renderings — iff their
`localDay` agree. -/
def localDay (tzOff t : Int) : Int := (t + tzOff).fdiv 86400000

/-- `FeedSieve.isToday` (v3): falsy date strings fail the guard; an invalid
date renders `toDateString()` as `"Invalid Date"`, which never equals the
current date's rendering; otherwise compare local calendar days. -/
def isToday (parse : String → Option Int) (now tzOff : Int)
    (dateStr : Option String) : Bool :=
  match jsFalsy dateStr with
  | none => false
  | some s =>
    match parse s with
    | none => false
    | some t => localDay tzOff t == localDay tzOff now

/-- `FeedSieve.isThisWeek` (v3): `date >= now - 7*24*60*60*1000`; a `NaN`
comparison (invalid date) is false. -/
def isThisWeek (parse : String → Option Int) (now : Int)
    (dateStr : Option String) : Bool :=
  match jsFalsy dateStr with
  | none => false
  | some s =>
    match parse s with
    | none => false
    | some t => decide (now - 7 * 24 * 60 * 60 * 1000 ≤ t)

/-- The filter predicate of the v3 `FeedSieve.applyFilters`
(`src/js/app.1766840000.js` lines 372–407): the conjunction, in source order, of
the temporal, type, source, category and search stages. -/
def passesFilters (parse : String → Option Int) (now tzOff : Int)
    (st : ViewState) (item : Article) : Bool :=
  let itemDate := jsOr item.published_at item.processed_at
  let timeOk :=
    if st.currentFilter = "today" then isToday parse now tzOff itemDate
    else if st.currentFilter = "week" then isThisWeek parse now itemDate
    else true
  let typeOk :=
    if st.currentFilter ∈ ["rss", "youtube", "blog", "nitter"] then
      jsOrDefault item.source_type "rss" = st.currentFilter
    else true
  let sourceOk :=
    if st.currentFilter = "source" then
      match st.currentSource with
      | some src => jsString item.source_id = jsString src.id
      | none => true
    else true
  let catOk :=
    if st.currentFilter = "category" then
      match jsFalsy st.currentCategory with
      | some c => (item.labels.getD []).contains c
      | none => true
    else true
  let searchOk :=
    if st.searchQuery = "" then true
    else includes (toLowerCase (searchText item)) st.searchQuery
  timeOk && typeOk && sourceOk && catOk && searchOk

/-- The filter predicate of the early `FeedSieve.applyFilters`
(`src/js/app.js` lines 82–96): only a type stage (applied whenever the mode is
not `all`, with no `rss` default — `item.source_type !== filter` is true for an
absent `source_type`) and a search stage. -/
def passesFiltersEarly (currentFilter searchQuery : String) (item : Article) : Bool :=
  let typeOk :=
    if currentFilter = "all" then true
    else
      match item.source_type with
      | some t => t = currentFilter
      | none => false
  let searchOk :=
    if searchQuery = "" then true
    else includes (toLowerCase (searchTextEarly item)) searchQuery
  typeOk && searchOk

/-- The filter predicate of the site `FeedSieve.applyFilters`
(`src/site/js/app.js` lines 87–102): type stage with the `rss` default,
applied whenever the mode is not `all`, plus the search stage. -/
def passesFiltersSite (currentFilter searchQuery : String) (item : Article) : Bool :=
  let typeOk :=
    if currentFilter = "all" then true
    else jsOrDefault item.source_type "rss" = currentFilter
  let searchOk :=
    if searchQuery = "" then true
    else includes (toLowerCase (searchText item)) searchQuery
  typeOk && searchOk

/-- The filtering step of `applyFilters` (v3): `this.filteredItems =
this.items.filter(...)` — the list before `sortItems` runs. -/
def applyFilters (parse : String → Option Int) (now tzOff : Int)
    (st : ViewState) (items : List Article) : List Article :=
  items.filter (passesFilters parse now tzOff st)

/-- `item.rating || 0` — the rating sort key of the v3 `sortItems`. -/
def ratingKey (a : Article) : Int := a.rating.getD 0

/-- The date key of the v3 `sortItems`:
`new Date(a.published_at || a.processed_at || 0)`.  A doubly-falsy date gives
`new Date(0)` (the epoch); an invalid date string gives `NaN`, modelled as
`none`. -/
def dateKey (parse : String → Option Int) (a : Article) : Option Int :=
  match jsFalsy (jsOr a.published_at a.processed_at) with
  | none => some 0
  | some s => parse s

/-- The date key of the early `sortItems` (`src/js/app.js` line 107):
`new Date(a.processed_at || a.published_at)` — `processed_at` preferred, and no
`|| 0` fallback (both absent gives an invalid date). -/
def dateKeyEarly (parse : String → Option Int) (a : Article) : Option Int :=
  match jsFalsy (jsOr a.processed_at a.published_at) with
  | none => none
  | some s => parse s

/-- The rating comparator of the early `sortItems` (`src/js/app.js` line 105):
`b.rating - a.rating` with no `|| 0` default.  When either rating is absent the
subtraction yields `NaN`, which the ECMAScript `SortCompare` step turns into
`+0` — the pair compares as equal. -/
def ratingCmpEarly (a b : Article) : Int :=
  match a.rating, b.rating with
  | some ra, some rb => rb - ra
  | _, _ => 0

/-- `FeedSieve.sortItems` (v3): stable sort of the filtered list, descending by
`rating || 0` in rating mode, else descending by the parsed date key (invalid
dates modelled at the epoch; the source comparator yields `NaN` there, so date-
sort theorems are only asserted for parseable inputs). -/
def sortItems (parse : String → Option Int) (sortBy : String)
    (l : List Article) : List Article :=
  if sortBy = "rating" then
    List.insertionSort (fun a b => ratingKey b ≤ ratingKey a) l
  else
    List.insertionSort
      (fun a b => (dateKey parse b).getD 0 ≤ (dateKey parse a).getD 0) l

/-- `FeedSieve.sortItems` of the early variant (`src/js/app.js` lines 102–112):
rating mode compares raw ratings (absent ⇒ `NaN` ⇒ treated as equal), date mode
keys on `processed_at || published_at`. -/
def sortItemsEarly (parse : String → Option Int) (sortBy : String)
    (l : List Article) : List Article :=
  if sortBy = "rating" then
    List.insertionSort (fun a b => ratingCmpEarly a b ≤ 0) l
  else
    List.insertionSort
      (fun a b => (dateKeyEarly parse b).getD 0 ≤ (dateKeyEarly parse a).getD 0) l

/-- Modelled from the spec: the claim-side effective date,
`effective_date(A) = A.published_at if present else A.processed_at` (absent
result standing for "unknown"). -/
def effective_date (a : Article) : Option String :=
  match a.published_at with
  | some s => some s
  | none => a.processed_at

/-- A concrete stand-in for the host date parser used by witnesses and
counterexamples: a non-empty all-digit string parses as that decimal number of
milliseconds, anything else is an invalid date. -/
def parseDec (s : String) : Option Int :=
  match s.data with
  | [] => none
  | cs =>
    if cs.all Char.isDigit then
      some (cs.foldl (fun acc c => acc * 10 + ((c.toNat : Int) - 48)) 0)
    else none

/-- Serialization of the read set: `JSON.stringify([...this.readItems])`. -/
def stringifyIds (l : List Int) : String :=
  "[" ++ String.intercalate "," (l.map jsNumToString) ++ "]"

/-- The v3 read-state store (`src/js/app.1766840000.js` lines 20–36): the
in-memory `Set` of read item ids (a JS `Set` iterates in insertion order and
never holds duplicates, so it is carried as its duplicate-free backing list)
together with the `localStorage['readItems']` payload. -/
structure ReadStore where
  readItems : List Int
  stored : String
deriving DecidableEq

/-- `FeedSieve.markAsRead` (v3): `Set.add` (append if absent) then persist. -/
def markAsRead (st : ReadStore) (itemId : Int) : ReadStore :=
  let s := if itemId ∈ st.readItems then st.readItems else st.readItems ++ [itemId]
  ⟨s, stringifyIds s⟩

/-- `FeedSieve.markAsUnread` (v3): `Set.delete` then persist.  A `delete` of an
absent element leaves the set unchanged and does not throw. -/
def markAsUnread (st : ReadStore) (itemId : Int) : ReadStore :=
  let s := st.readItems.erase itemId
  ⟨s, stringifyIds s⟩

/-- `FeedSieve.isRead` (v3): `this.readItems.has(itemId)`. -/
def isRead (st : ReadStore) (itemId : Int) : Bool := st.readItems.contains itemId

/-- The site variant's per-key store: `localStorage` as a partial map from
keys to strings. -/
def kvSet (store : String → Option String) (k v : String) : String → Option String :=
  fun q => if q = k then some v else store q

/-- `localStorage.removeItem`. -/
def kvRemove (store : String → Option String) (k : String) : String → Option String :=
  fun q => if q = k then none else store q

/-- `FeedSieve.isRead` of the site variant (`src/site/js/app.js` lines
706–708): `localStorage.getItem('read_' + itemId) === 'true'`. -/
def isReadSite (store : String → Option String) (itemId : String) : Bool :=
  store ("read_" ++ itemId) == some "true"

/-- `FeedSieve.markAsRead` of the site variant:
`localStorage.setItem('read_' + itemId, 'true')`. -/
def markAsReadSite (store : String → Option String) (itemId : String) :
    String → Option String :=
  kvSet store ("read_" ++ itemId) "true"

/-- `FeedSieve.markAsUnread` of the site variant:
`localStorage.removeItem('read_' + itemId)`. -/
def markAsUnreadSite (store : String → Option String) (itemId : String) :
    String → Option String :=
  kvRemove store ("read_" ++ itemId)

/-- One step of `buildCategoryIndex`'s inner loop: `this.categories[label]++`
(with a fresh entry starting at 0). -/
def bumpLabel (m : String → Nat) (label : String) : String → Nat :=
  fun k => if k = label then m k + 1 else m k

/-- `FeedSieve.buildCategoryIndex` (`src/js/app.1766840000.js` lines 161–184),
restricted to the `count` field: the per-label counters after walking every
article's `labels || []` (the icon decoration carries no counting semantics).
Absent entries read as 0. -/
def buildCategoryIndex (items : List Article) : String → Nat :=
  items.foldl (fun m item => (item.labels.getD []).foldl bumpLabel m) (fun _ => 0)

/-- Modelled from the spec: a JSON scalar value, part of the host `JSON.parse`
capability (the spec's read-state persistence format is "a JSON-encoded array
of article identifiers"). -/
inductive JVal where
  | jnull : JVal
  | jbool : Bool → JVal
  | jnum : Int → JVal
  | jstr : String → JVal
deriving DecidableEq

/-- Modelled from the spec: a JSON document of the fragment the read-state
store exercises — a scalar or a flat array of scalars.  (Objects, nested
arrays, fractional numbers and string escapes are outside the exercised
fragment.) -/
inductive Json where
  | scalar : JVal → Json
  | arr : List JVal → Json
deriving DecidableEq

/-- Skip JSON whitespace. -/
def skipWs : List Char → List Char
  | c :: cs => if c = ' ' ∨ c = '\t' ∨ c = '\n' ∨ c = '\r' then skipWs cs else c :: cs
  | [] => []

/-- Longest digit run at the head of the input. -/
def takeDigits : List Char → List Char × List Char
  | c :: cs =>
    if c.isDigit then
      let (d, r) := takeDigits cs
      (c :: d, r)
    else ([], c :: cs)
  | [] => ([], [])

/-- Value of a digit run. -/
def digitsToNat (ds : List Char) : Nat :=
  ds.foldl (fun acc c => acc * 10 + (c.toNat - 48)) 0

/-- Parse an integral JSON number. -/
def parseNum : List Char → Option (Int × List Char)
  | '-' :: rest =>
    match takeDigits rest with
    | ([], _) => none
    | (ds, r) => some (-(digitsToNat ds : Int), r)
  | cs =>
    match takeDigits cs with
    | ([], _) => none
    | (ds, r) => some ((digitsToNat ds : Int), r)

/-- Consume a JSON string body (after the opening quote, up to the closing
quote; escape sequences are outside the modelled fragment). -/
def takeStr : List Char → Option (List Char × List Char)
  | [] => none
  | c :: cs =>
    if c = '"' then some ([], cs)
    else if c = '\\' then none
    else
      match takeStr cs with
      | some (s, r) => some (c :: s, r)
      | none => none

/-- Parse a JSON scalar (null, boolean, integral number, or string). -/
def parseScalar (cs0 : List Char) : Option (JVal × List Char) :=
  match skipWs cs0 with
  | 'n' :: 'u' :: 'l' :: 'l' :: r => some (.jnull, r)
  | 't' :: 'r' :: 'u' :: 'e' :: r => some (.jbool true, r)
  | 'f' :: 'a' :: 'l' :: 's' :: 'e' :: r => some (.jbool false, r)
  | '"' :: r =>
    match takeStr r with
    | some (s, r2) => some (.jstr ⟨s⟩, r2)
    | none => none
  | cs =>
    match parseNum cs with
    | some (n, r) => some (.jnum n, r)
    | none => none

/-- Parse the items of a flat JSON array, after the opening bracket; `fuel`
bounds the recursion (each item consumes input, so the input length suffices). -/
def parseArrTail (fuel : Nat) (cs : List Char) : Option (List JVal × List Char) :=
  match fuel with
  | 0 => none
  | fuel + 1 =>
    match skipWs cs with
    | ']' :: r => some ([], r)
    | cs1 =>
      match parseScalar cs1 with
      | none => none
      | some (v, r) =>
        match skipWs r with
        | ',' :: r2 =>
          match parseArrTail fuel r2 with
          | some (vs, r3) => some (v :: vs, r3)
          | none => none
        | ']' :: r2 => some ([v], r2)
        | _ => none

/-- Modelled from the spec: the host `JSON.parse` capability on the fragment
the read-state store exercises.  A failed parse is the `SyntaxError` that
`JSON.parse` throws. -/
def jsonParse (s : String) : Except String Json :=
  match skipWs s.data with
  | '[' :: r =>
    match parseArrTail (r.length + 1) r with
    | some (vs, rest) =>
      if (skipWs rest).isEmpty then .ok (.arr vs)
      else .error "SyntaxError: Unexpected token"
    | none => .error "SyntaxError: Unexpected token"
  | cs =>
    match parseScalar cs with
    | some (v, rest) =>
      if (skipWs rest).isEmpty then .ok (.scalar v)
      else .error "SyntaxError: Unexpected token"
    | none => .error "SyntaxError: Unexpected token"

/-- JS `Set` construction from a list: keep the first occurrence of each
element. -/
def dedupKeepFirst : List JVal → List JVal
  | [] => []
  | x :: xs => x :: (dedupKeepFirst xs).filter (fun y => y ≠ x)

/-- Modelled from the spec: `new Set(v)` on a parsed JSON value.  Arrays and
strings are iterable (a string iterates its characters); `new Set(null)` is the
empty set; numbers and booleans are not iterable and make the constructor throw
a `TypeError`. -/
def newSet (v : Json) : Except String (List JVal) :=
  match v with
  | .arr xs => .ok (dedupKeepFirst xs)
  | .scalar .jnull => .ok []
  | .scalar (.jstr s) => .ok (dedupKeepFirst (s.data.map (fun c => JVal.jstr ⟨[c]⟩)))
  | .scalar (.jnum _) => .error "TypeError: not iterable"
  | .scalar (.jbool _) => .error "TypeError: not iterable"

/-- The read-state initialization of the v3 constructor
(`src/js/app.1766840000.js` line 20):
`new Set(JSON.parse(localStorage.getItem('readItems') || '[]'))`, with `stored`
the raw persisted payload (`none` when the key is absent).  There is no
`try`/`catch`: a parse or construction failure propagates to the caller. -/
def initReadItems (stored : Option String) : Except String (List JVal) :=
  match jsonParse (match jsFalsy stored with | some s => s | none => "[]") with
  | .error e => .error e
  | .ok v => newSet v

/-- Membership in the freshly constructed read set (`readItems.has`). -/
def isReadIn (readItems : List JVal) (itemId : JVal) : Bool :=
  readItems.contains itemId

/-- Article with a `published_at` preceding its `processed_at` (as decimal
epoch-millisecond strings for `parseDec`). -/
def artPub3 : Article :=
  ⟨1, some "A", none, none, .str "s1", none, some "3", some "0", none, none⟩

/-- Article with a `published_at` following its `processed_at`. -/
def artPub1 : Article :=
  ⟨2, some "B", none, none, .str "s2", none, some "1", some "2", none, none⟩

/-- Article with an absent `title`. -/
def artU : Article :=
  ⟨3, none, some "Budget report", none, .str "u", some "Reuters", none, none, none, none⟩

/-- Article with an absent `rating`. -/
def artNoRating : Article :=
  ⟨4, some "A", none, none, .str "s", none, none, none, none, none⟩

/-- Article rated 90. -/
def artR90 : Article :=
  ⟨5, some "B", none, none, .str "s", none, none, none, some 90, none⟩

/-- Article with a duplicated label. -/
def artDup : Article :=
  ⟨6, none, none, none, .str "d", none, none, none, none, some ["AI", "AI", "Tech"]⟩

/-- Article with an absent `source_type`. -/
def artNoType : Article :=
  ⟨7, some "T", none, none, .str "n", none, none, none, none, none⟩

/-- C6: with `filter_mode = all` and an empty search query, `applyFilters`
returns the full loaded item list unchanged and in load order (its
`filteredItems` before `sortItems` runs), whatever residual
`currentSource`/`currentCategory` selection is held. -/
theorem c6_all_empty_search_is_identity (parse : String → Option Int)
    (now tzOff : Int) (src : Option SourceSel) (cat : Option String) (sb : String)
    (items : List Article) :
    applyFilters parse now tzOff ⟨"all", src, cat, "", sb⟩ items = items := by
  simp only [applyFilters]
  exact List.filter_eq_self.mpr (fun a _ => rfl)

/-- C7: read-state round trip, for the v3 `Set`-based store (whose backing list
is duplicate-free, as a JS `Set` always is) and for the site per-key store:
marking read makes `isRead` true; a subsequent unmark makes it false; unmarking
a never-marked identifier leaves the read set (resp. the whole key/value store)
unchanged.  All four operations are total — none raises. -/
theorem c7_read_state_round_trip (st : ReadStore) (store : String → Option String)
    (itemId : Int) (sid : String) (hnd : st.readItems.Nodup) :
    isRead (markAsRead st itemId) itemId = true
    ∧ isRead (markAsUnread (markAsRead st itemId) itemId) itemId = false
    ∧ (isRead st itemId = false → (markAsUnread st itemId).readItems = st.readItems)
    ∧ isReadSite (markAsReadSite store sid) sid = true
    ∧ isReadSite (markAsUnreadSite (markAsReadSite store sid) sid) sid = false
    ∧ (store ("read_" ++ sid) = none → markAsUnreadSite store sid = store) := by
  refine ⟨?_, ?_, ?_, ?_, ?_, ?_⟩
  · by_cases h : itemId ∈ st.readItems
    · simp [isRead, markAsRead, h]
    · simp [isRead, markAsRead, h]
  · by_cases h : itemId ∈ st.readItems
    · simp only [isRead, markAsRead, markAsUnread, if_pos h]
      simpa using hnd.not_mem_erase
    · simp only [isRead, markAsRead, markAsUnread, if_neg h]
      rw [List.erase_append_right _ h]
      simpa using h
  · intro h
    have hmem : itemId ∉ st.readItems := by simpa [isRead] using h
    simp [markAsUnread, List.erase_of_not_mem hmem]
  · simp [isReadSite, markAsReadSite, kvSet]
  · simp [isReadSite, markAsReadSite, markAsUnreadSite, kvSet, kvRemove]
  · intro h
    funext q
    by_cases hq : q = "read_" ++ sid
    · simp [markAsUnreadSite, kvRemove, hq, h.symm]
    · simp [markAsUnreadSite, kvRemove, hq]

/-- C7 witness: the round trip at a concrete store and identifier. -/
theorem c7_read_state_round_trip_witness :
    isRead (markAsRead ⟨[3], "[3]"⟩ 7) 7 = true
    ∧ isRead (markAsUnread (markAsRead ⟨[3], "[3]"⟩ 7) 7) 7 = false
    ∧ (markAsUnread ⟨[3], "[3]"⟩ 7).readItems = [3]
    ∧ isReadSite (markAsReadSite (fun _ => none) "7") "7" = true
    ∧ isReadSite (markAsUnreadSite (markAsReadSite (fun _ => none) "7") "7") "7" = false
    ∧ markAsUnreadSite (fun _ => none) "7" = (fun _ => none) := by
  obtain ⟨h1, h2, h3, h4, h5, h6⟩ :=
    c7_read_state_round_trip ⟨[3], "[3]"⟩ (fun _ => none) 7 "7" (by decide)
  exact ⟨h1, h2, h3 (by decide), h4, h5, h6 rfl⟩

/-- C10: with `filter_mode = source` and an active source set (and no search
query), an article passes `applyFilters` iff `String(item.source_id)` equals
`String(currentSource.id)`; the active source's `type` is never consulted, so
an article of a different `source_type` sharing the coerced id is included. -/
theorem c10_source_filter_ignores_type (parse : String → Option Int)
    (now tzOff : Int) (sel : SourceSel) (sb : String) (item : Article) :
    (passesFilters parse now tzOff ⟨"source", some sel, none, "", sb⟩ item = true
      ↔ jsString item.source_id = jsString sel.id)
    ∧ (item.source_type ≠ some sel.type → jsString item.source_id = jsString sel.id →
        passesFilters parse now tzOff ⟨"source", some sel, none, "", sb⟩ item = true) := by
  constructor
  · simp [passesFilters]
  · intro _ h
    simp [passesFilters, h]

/-- C10 witness: a `youtube` article sharing the `source_id` of the active
`rss` source is included. -/
theorem c10_source_filter_ignores_type_witness :
    passesFilters parseDec 0 0
      ⟨"source", some ⟨.str "feedA", "rss"⟩, none, "", "date"⟩
      ⟨9, some "Y", none, some "youtube", .str "feedA", none, none, none, none, none⟩
      = true :=
  (c10_source_filter_ignores_type parseDec 0 0 ⟨.str "feedA", "rss"⟩ "date"
    ⟨9, some "Y", none, some "youtube", .str "feedA", none, none, none, none, none⟩).2
    (by decide) (by decide)

/-- C5: under `filter_mode = today` an article passes `applyFilters` iff its
effective date (`published_at || processed_at`) is a truthy string parsing to
an instant on the same local calendar day as `now` (calendar-date equality,
not a rolling 24-hour window); under `filter_mode = week` iff that instant is
`≥ now − 7×24×60×60×1000`; an absent or unparseable effective date fails both
temporal predicates. -/
theorem c5_temporal_stage (parse : String → Option Int) (now tzOff : Int)
    (sb : String) (a : Article) :
    (passesFilters parse now tzOff ⟨"today", none, none, "", sb⟩ a = true
      ↔ ∃ s t, jsFalsy (jsOr a.published_at a.processed_at) = some s
          ∧ parse s = some t ∧ localDay tzOff t = localDay tzOff now)
    ∧ (passesFilters parse now tzOff ⟨"week", none, none, "", sb⟩ a = true
      ↔ ∃ s t, jsFalsy (jsOr a.published_at a.processed_at) = some s
          ∧ parse s = some t ∧ now - 7 * 24 * 60 * 60 * 1000 ≤ t)
    ∧ ((∀ s, jsFalsy (jsOr a.published_at a.processed_at) = some s → parse s = none) →
        passesFilters parse now tzOff ⟨"today", none, none, "", sb⟩ a = false
        ∧ passesFilters parse now tzOff ⟨"week", none, none, "", sb⟩ a = false) := by
  have htoday : passesFilters parse now tzOff ⟨"today", none, none, "", sb⟩ a
      = isToday parse now tzOff (jsOr a.published_at a.processed_at) := by
    simp [passesFilters]
  have hweek : passesFilters parse now tzOff ⟨"week", none, none, "", sb⟩ a
      = isThisWeek parse now (jsOr a.published_at a.processed_at) := by
    simp [passesFilters]
  refine ⟨?_, ?_, ?_⟩
  · rw [htoday]
    unfold isToday
    cases hjf : jsFalsy (jsOr a.published_at a.processed_at) with
    | none => simp [hjf]
    | some s =>
      cases hp : parse s with
      | none => simp [hp]
      | some t => simp [hp, beq_iff_eq]
  · rw [hweek]
    unfold isThisWeek
    cases hjf : jsFalsy (jsOr a.published_at a.processed_at) with
    | none => simp [hjf]
    | some s =>
      cases hp : parse s with
      | none => simp [hp]
      | some t => simp [hp]
  · intro hbad
    rw [htoday, hweek]
    unfold isToday isThisWeek
    cases hjf : jsFalsy (jsOr a.published_at a.processed_at) with
    | none => simp
    | some s => simp [hbad s hjf]

/-- C5 witness: an article published at instant 5 ms passes `today` at
`now = 10` (same epoch day, UTC); an article bearing only the unparseable
date string `"soon"` fails both temporal filters. -/
theorem c5_temporal_stage_witness :
    passesFilters parseDec 10 0 ⟨"today", none, none, "", "date"⟩ artPub3 = true
    ∧ passesFilters parseDec 10 0 ⟨"today", none, none, "", "date"⟩
        ⟨8, some "S", none, none, .str "x", none, some "soon", none, none, none⟩ = false
    ∧ passesFilters parseDec 10 0 ⟨"week", none, none, "", "date"⟩
        ⟨8, some "S", none, none, .str "x", none, some "soon", none, none, none⟩ = false := by
  have h1 := (c5_temporal_stage parseDec 10 0 "date" artPub3).1.mpr
    ⟨"3", 3, by decide, by decide, by decide⟩
  have h2 := (c5_temporal_stage parseDec 10 0 "date"
    ⟨8, some "S", none, none, .str "x", none, some "soon", none, none, none⟩).2.2
    (by intro s hs; cases hs; decide)
  exact ⟨h1, h2.1, h2.2⟩

/-- C4 counterexample: the rating comparator of `src/js/app.js` applies no
`|| 0` default, so against an absent rating it computes `NaN`, which
`Array.prototype.sort` treats as `+0` (elements compare equal) — a stable sort
therefore leaves `[unrated, rated 90]` in place, instead of ranking the
unrated article as 0 and moving the 90-rated article first: the output is not
descending in the defaulted rating. -/
theorem c4_counterexample :
    sortItemsEarly parseDec "rating" [artNoRating, artR90] = [artNoRating, artR90]
    ∧ ¬ List.Sorted (fun a b => ratingKey b ≤ ratingKey a) [artNoRating, artR90] := by
  constructor
  · decide
  · decide

/-- C4 (amended): in the v3 `sortItems`, rating mode orders the filtered list
descending by `rating || 0`, and articles with equal defaulted ratings keep
their original relative order (the per-key sublists are untouched —
stability). -/
theorem c4_rating_sort_amended (parse : String → Option Int) (l : List Article) :
    List.Sorted (fun a b => ratingKey b ≤ ratingKey a) (sortItems parse "rating" l)
    ∧ ∀ k : Int, (sortItems parse "rating" l).filter (fun a => ratingKey a == k)
        = l.filter (fun a => ratingKey a == k) := by
  have hs : sortItems parse "rating" l
      = List.insertionSort (fun a b => ratingKey b ≤ ratingKey a) l := by
    simp [sortItems]
  haveI htot : IsTotal Article (fun a b => ratingKey b ≤ ratingKey a) :=
    ⟨fun a b => le_total (ratingKey b) (ratingKey a)⟩
  haveI htr : IsTrans Article (fun a b => ratingKey b ≤ ratingKey a) :=
    ⟨fun _ _ _ hab hbc => le_trans hbc hab⟩
  constructor
  · rw [hs]
    exact List.sorted_insertionSort _ l
  · intro k
    rw [hs]
    have h1 : (l.filter (fun a => ratingKey a == k)).Pairwise
        (fun a b => ratingKey b ≤ ratingKey a) := by
      apply List.pairwise_of_forall_mem_list
      intro a ha b hb
      have hak : ratingKey a = k := by simpa using (List.mem_filter.mp ha).2
      have hbk : ratingKey b = k := by simpa using (List.mem_filter.mp hb).2
      rw [hak, hbk]
    have h3 : List.Sublist (l.filter (fun a => ratingKey a == k))
        (List.insertionSort (fun a b => ratingKey b ≤ ratingKey a) l) :=
      List.sublist_insertionSort h1 (List.filter_sublist l)
    have h5 : List.Sublist (l.filter (fun a => ratingKey a == k))
        ((List.insertionSort (fun a b => ratingKey b ≤ ratingKey a) l).filter
            (fun a => ratingKey a == k)) := by
      have h4 := h3.filter (fun a => ratingKey a == k)
      simpa using h4
    have h6 : ((List.insertionSort (fun a b => ratingKey b ≤ ratingKey a) l).filter
        (fun a => ratingKey a == k)).length
        = (l.filter (fun a => ratingKey a == k)).length :=
      ((List.perm_insertionSort _ l).filter _).length_eq
    exact (h5.eq_of_length h6.symm).symm

/-- C1 counterexample: the date-mode sort of `src/js/app.js` keys on
`processed_at || published_at` — it prefers `processed_at`.  `artPub3` has
`published_at = "3"` and `processed_at = "0"`: the claim-side effective date is
`"3"` (the published instant), but the early sort key is 0, and the early sort
orders `[artPub3, artPub1]` as `[artPub1, artPub3]` (by processed dates 0 < 2)
while the published-preferred v3 sort orders the same list `[artPub3, artPub1]`
(by published dates 3 > 1). -/
theorem c1_counterexample :
    dateKeyEarly parseDec artPub3 = some 0
    ∧ effective_date artPub3 = some "3"
    ∧ parseDec "3" = some 3
    ∧ sortItemsEarly parseDec "date" [artPub3, artPub1] = [artPub1, artPub3]
    ∧ sortItems parseDec "date" [artPub3, artPub1] = [artPub3, artPub1] := by
  refine ⟨by decide, by decide, by decide, by decide, by decide⟩

/-- C1 (amended): in the v3/site/part_000 variants, both the date-mode sort key
and the temporal-filter date prefer `published_at`: a truthy `published_at` is
used as is; with `published_at` falsy a truthy `processed_at` is used; with both
falsy the sort key is the epoch (`new Date(0)`).  The early variant
(`src/js/app.js`) instead keys its date sort on `processed_at`, falling back to
`published_at` — it prefers `processed_at` over `published_at`. -/
theorem c1_effective_date_amended (parse : String → Option Int) (a : Article) :
    (∀ s, a.published_at = some s → s ≠ "" →
        dateKey parse a = parse s ∧ jsOr a.published_at a.processed_at = some s)
    ∧ (jsFalsy a.published_at = none → ∀ s, a.processed_at = some s → s ≠ "" →
        dateKey parse a = parse s ∧ jsOr a.published_at a.processed_at = some s)
    ∧ (jsFalsy a.published_at = none → jsFalsy a.processed_at = none →
        dateKey parse a = some 0)
    ∧ (∀ s, a.processed_at = some s → s ≠ "" → dateKeyEarly parse a = parse s) := by
  refine ⟨?_, ?_, ?_, ?_⟩
  · intro s hp hne
    have hf : jsFalsy (some s) = some s := by simp [jsFalsy, hne]
    have hor : jsOr a.published_at a.processed_at = some s := by
      unfold jsOr
      rw [hp, hf]
    refine ⟨?_, hor⟩
    unfold dateKey
    rw [hor, hf]
  · intro hpf s hp hne
    have hf : jsFalsy (some s) = some s := by simp [jsFalsy, hne]
    have hor : jsOr a.published_at a.processed_at = some s := by
      unfold jsOr
      rw [hpf, hp]
    refine ⟨?_, hor⟩
    unfold dateKey
    rw [hor, hf]
  · intro hpf hqf
    have hor : jsOr a.published_at a.processed_at = a.processed_at := by
      unfold jsOr
      rw [hpf]
    unfold dateKey
    rw [hor, hqf]
  · intro s hp hne
    have hf : jsFalsy (some s) = some s := by simp [jsFalsy, hne]
    have hor : jsOr a.processed_at a.published_at = some s := by
      unfold jsOr
      rw [hp, hf]
    unfold dateKeyEarly
    rw [hor, hf]

/-- C1 witness: the amended preference evaluated at `artPub3` — the v3 date key
takes the published instant 3, the early key takes the processed instant 0. -/
theorem c1_effective_date_amended_witness :
    dateKey parseDec artPub3 = some 3 ∧ dateKeyEarly parseDec artPub3 = some 0 := by
  constructor
  · have h := ((c1_effective_date_amended parseDec artPub3).1 "3" rfl (by decide)).1
    rw [h]
    decide
  · have h := (c1_effective_date_amended parseDec artPub3).2.2.2 "0" rfl (by decide)
    rw [h]
    decide

/-- Lowercasing distributes over string concatenation. -/
theorem toLowerCase_append (x y : String) :
    toLowerCase (x ++ y) = toLowerCase x ++ toLowerCase y := by
  cases x with
  | mk xs =>
    cases y with
    | mk ys => exact congrArg String.mk (List.map_append Char.toLower xs ys)

/-- Modelled from the spec (claim side of C2): the search corpus as the claim
describes it — the plain concatenation of `title`, `summary` and `source_name`
with the empty string substituted for absent fields. -/
def searchCorpusSpec (a : Article) : String :=
  a.title.getD "" ++ a.summary.getD "" ++ a.source_name.getD ""

/-- C2 counterexample: `artU` has no `title`, so the source corpus
`` `${item.title} ...` `` interpolates the literal string `"undefined"` and the
query `"undefined"` matches — yet `"undefined"` is not a substring of the
claim's empty-substitution corpus.  An article can match a query merely because
a field is absent. -/
theorem c2_counterexample :
    passesFilters parseDec 0 0 ⟨"all", none, none, "undefined", "date"⟩ artU = true
    ∧ ¬ ("undefined".data <:+: (toLowerCase (searchCorpusSpec artU)).data) := by
  constructor
  · decide
  · decide

/-- C2 (amended): with `filter_mode = all`, an article passes `applyFilters`
iff the stored query (already lowercased by the search input handler) is a
substring of the lowercased, space-separated interpolation of `title`,
`summary` and `source_name` — where an absent `source_name` becomes the empty
string but an absent `title` or `summary` is interpolated as the literal string
`"undefined"` (so such an article can match queries like "undefined" merely
because the field is absent).  An empty query imposes no constraint. -/
theorem c2_search_stage_amended (parse : String → Option Int) (now tzOff : Int)
    (src : Option SourceSel) (cat : Option String) (sb q : String) (a : Article) :
    passesFilters parse now tzOff ⟨"all", src, cat, q, sb⟩ a = true
      ↔ q.data <:+: (toLowerCase (tmpl a.title) ++ " " ++ toLowerCase (tmpl a.summary)
          ++ " " ++ toLowerCase (jsOrEmpty a.source_name)).data := by
  have hcorpus : toLowerCase (searchText a)
      = toLowerCase (tmpl a.title) ++ " " ++ toLowerCase (tmpl a.summary)
        ++ " " ++ toLowerCase (jsOrEmpty a.source_name) := by
    unfold searchText
    rw [toLowerCase_append, toLowerCase_append, toLowerCase_append, toLowerCase_append]
    have hsp : toLowerCase " " = " " := by decide
    simp only [hsp]
  by_cases hq : q = ""
  · subst hq
    constructor
    · intro _
      exact ⟨[], (toLowerCase (tmpl a.title) ++ " " ++ toLowerCase (tmpl a.summary)
        ++ " " ++ toLowerCase (jsOrEmpty a.source_name)).data, rfl⟩
    · intro _
      simp [passesFilters]
  · have hred : passesFilters parse now tzOff ⟨"all", src, cat, q, sb⟩ a
        = includes (toLowerCase (searchText a)) q := by
      simp [passesFilters, hq]
    rw [hred]
    unfold includes
    rw [hcorpus]
    exact decide_eq_true_iff

/-- C3 counterexample: the constructor runs
`new Set(JSON.parse(localStorage.getItem('readItems') || '[]'))` with no
`try`/`catch`, so a payload that is not valid JSON makes `JSON.parse` throw a
`SyntaxError` that escapes to the caller — the store is not treated as the
empty set. -/
theorem c3_counterexample :
    initReadItems (some "definitely not json") = Except.error "SyntaxError: Unexpected token"
    ∧ initReadItems (some "definitely not json") ≠ Except.ok [] := by
  have h1 : initReadItems (some "definitely not json")
      = Except.error "SyntaxError: Unexpected token" := rfl
  refine ⟨h1, ?_⟩
  rw [h1]
  intro h
  exact Except.noConfusion h

/-- C3 (amended): an absent or empty persisted payload falls back to `'[]'` and
yields the empty read set (after which every identifier reports unread), and a
well-formed array payload parses — but a malformed payload is not tolerated:
invalid JSON propagates `JSON.parse`'s `SyntaxError`, and a valid non-iterable
JSON scalar (e.g. a number) makes `new Set` throw a `TypeError`; neither is
caught. -/
theorem c3_read_state_init_amended :
    initReadItems none = Except.ok []
    ∧ initReadItems (some "") = Except.ok []
    ∧ initReadItems (some "[]") = Except.ok []
    ∧ initReadItems (some "[1, 2, 1]") = Except.ok [JVal.jnum 1, JVal.jnum 2]
    ∧ (∀ idv : JVal, isReadIn [] idv = false)
    ∧ initReadItems (some "not valid json") = Except.error "SyntaxError: Unexpected token"
    ∧ initReadItems (some "5") = Except.error "TypeError: not iterable" := by
  exact ⟨rfl, rfl, rfl, rfl, fun _ => rfl, rfl, rfl⟩

/-- The counter a label accumulates over a label list: one increment per
occurrence. -/
theorem foldl_bumpLabel (labels : List String) (m : String → Nat) (lab : String) :
    (labels.foldl bumpLabel m) lab = m lab + labels.count lab := by
  induction labels generalizing m with
  | nil => simp
  | cons x xs ih =>
    rw [List.foldl_cons, ih, List.count_cons]
    unfold bumpLabel
    by_cases h : lab = x
    · subst h
      simp
      omega
    · have hbx : (x == lab) = false := by
        simp [beq_eq_false_iff_ne]
        exact fun hxl => h hxl.symm
      simp [h, hbx]

/-- `buildCategoryIndex` counts, for each label, one unit per occurrence of
that label in each article's `labels || []` list. -/
theorem buildCategoryIndex_count (items : List Article) (lab : String) :
    buildCategoryIndex items lab
      = (items.map (fun a => (a.labels.getD []).count lab)).sum := by
  unfold buildCategoryIndex
  have key : ∀ (m : String → Nat),
      (items.foldl (fun m item => (item.labels.getD []).foldl bumpLabel m) m) lab
        = m lab + (items.map (fun a => (a.labels.getD []).count lab)).sum := by
    induction items with
    | nil => intro m; simp
    | cons a rest ih =>
      intro m
      rw [List.foldl_cons, ih, foldl_bumpLabel]
      simp [Nat.add_assoc]
  rw [key]
  exact Nat.zero_add _

/-- C8 counterexample: `artDup` has `labels = ["AI","AI","Tech"]` — it contains
both `"AI"` and `"Tech"`, yet `buildCategoryIndex` counts it twice, not once,
under the `"AI"` bucket (the index increments once per label occurrence). -/
theorem c8_counterexample :
    "AI" ∈ artDup.labels.getD [] ∧ "Tech" ∈ artDup.labels.getD []
    ∧ buildCategoryIndex [artDup] "AI" = 2
    ∧ buildCategoryIndex [artDup] "AI" ≠ 1 := by
  refine ⟨by decide, by decide, by decide, by decide⟩

/-- C8 (amended): an article whose `labels` contain both `"AI"` and `"Tech"`
is in the filtered result both under `category = "AI"` and under
`category = "Tech"`; and the category index counts every article once per
occurrence of a label in its `labels` list (so this article is counted under
both buckets, and a duplicated label is counted multiply). -/
theorem c8_category_amended (parse : String → Option Int) (now tzOff : Int)
    (sb : String) (items : List Article) (a : Article)
    (hA : "AI" ∈ a.labels.getD []) (hT : "Tech" ∈ a.labels.getD [])
    (ha : a ∈ items) :
    a ∈ applyFilters parse now tzOff ⟨"category", none, some "AI", "", sb⟩ items
    ∧ a ∈ applyFilters parse now tzOff ⟨"category", none, some "Tech", "", sb⟩ items
    ∧ ∀ lab, buildCategoryIndex items lab
        = (items.map (fun x => (x.labels.getD []).count lab)).sum := by
  refine ⟨?_, ?_, fun lab => buildCategoryIndex_count items lab⟩
  · apply List.mem_filter.mpr
    refine ⟨ha, ?_⟩
    simp [passesFilters, jsFalsy]
    simpa using hA
  · apply List.mem_filter.mpr
    refine ⟨ha, ?_⟩
    simp [passesFilters, jsFalsy]
    simpa using hT

/-- C8 witness: the double-labelled article of the spec scenario appears under
both category filters, and the index identity holds on its singleton feed. -/
theorem c8_category_amended_witness :
    (⟨10, none, none, none, .str "w", none, none, none, none,
        some ["AI", "Tech"]⟩ : Article)
      ∈ applyFilters parseDec 0 0 ⟨"category", none, some "AI", "", "date"⟩
        [⟨10, none, none, none, .str "w", none, none, none, none, some ["AI", "Tech"]⟩]
    ∧ (⟨10, none, none, none, .str "w", none, none, none, none,
        some ["AI", "Tech"]⟩ : Article)
      ∈ applyFilters parseDec 0 0 ⟨"category", none, some "Tech", "", "date"⟩
        [⟨10, none, none, none, .str "w", none, none, none, none, some ["AI", "Tech"]⟩] := by
  obtain ⟨h1, h2, _⟩ := c8_category_amended parseDec 0 0 "date"
    [⟨10, none, none, none, .str "w", none, none, none, none, some ["AI", "Tech"]⟩]
    ⟨10, none, none, none, .str "w", none, none, none, none, some ["AI", "Tech"]⟩
    (by decide) (by decide) (by decide)
  exact ⟨h1, h2⟩

/-- C9 counterexample: the type filter of `src/js/app.js` compares
`item.source_type !== this.currentFilter` with no `rss` default, so an article
with an absent `source_type` is rejected under `filter_mode = "rss"` — the
claim requires it to pass. -/
theorem c9_counterexample :
    artNoType.source_type = none
    ∧ passesFiltersEarly "rss" "" artNoType = false := by
  exact ⟨rfl, rfl⟩

/-- C9 (amended): in the v3 variant (for the known type values) and in the site
variant (for every mode other than `all`), the type stage passes iff
`source_type || 'rss'` equals the filter mode — in particular an article with
an absent `source_type` passes `filter_mode = rss`.  The early variant
(`src/js/app.js`) applies no default: its type stage passes iff `source_type`
is present and equals the mode exactly, so an absent `source_type` fails every
mode other than `all`, including `rss`. -/
theorem c9_type_stage_amended (parse : String → Option Int) (now tzOff : Int)
    (sb : String) (f : String) (item : Article)
    (hf : f ∈ ["rss", "youtube", "blog", "nitter"]) :
    (passesFilters parse now tzOff ⟨f, none, none, "", sb⟩ item = true
      ↔ jsOrDefault item.source_type "rss" = f)
    ∧ (item.source_type = none →
        passesFilters parse now tzOff ⟨"rss", none, none, "", sb⟩ item = true)
    ∧ (passesFiltersSite f "" item = true ↔ jsOrDefault item.source_type "rss" = f)
    ∧ (passesFiltersEarly f "" item = true ↔ item.source_type = some f) := by
  have hcases : f = "rss" ∨ f = "youtube" ∨ f = "blog" ∨ f = "nitter" := by
    simpa using hf
  have hne : f ≠ "all" := by
    rcases hcases with h | h | h | h <;> subst h <;> decide
  refine ⟨?_, ?_, ?_, ?_⟩
  · rcases hcases with h | h | h | h <;> subst h <;> simp [passesFilters]
  · intro hnone
    simp [passesFilters, jsOrDefault, jsFalsy, hnone]
  · simp [passesFiltersSite, hne]
  · simp only [passesFiltersEarly, if_neg hne]
    cases ht : item.source_type with
    | none => simp
    | some t => simp

/-- C9 witness: under the v3 filter, the no-`source_type` article passes
`filter_mode = rss` (the default applies there, unlike in the early variant). -/
theorem c9_type_stage_amended_witness :
    passesFilters parseDec 0 0 ⟨"rss", none, none, "", "date"⟩ artNoType = true :=
  (c9_type_stage_amended parseDec 0 0 "date" "rss" artNoType (by decide)).2.1 rfl
